import Mathlib

/-!
Shallow embedding of `src/src/lidar_localization_component.cpp`
(`PCLLocalization`), the pose-tracking pipeline of the
`lidar_localization_ros2` package.

Modelling conventions:
* `double` arithmetic is idealised as exact real arithmetic (`ℝ`); tolerance
  claims become exact equalities.
* The external scan-to-map registration engine (`registration_`) is a
  parameter `align : List Point → Transform → AlignResult`, matching the
  narrow interface `setInputSource` / `align(init_guess)` /
  `hasConverged` / `getFitnessScore` / `getFinalTransformation`.
* The two tf-buffer lookups in `cloudReceived` are parameters
  `scanTf : Option TransformMsg` (base ← scan-frame lookup, line 459) and
  `odomTf : Option TransformMsg` (odom → base lookup, line 547); `none`
  models a `tf2::TransformException`.
* `lidar_undistortion_.adjustDistortion` (external helper, only invoked
  when `use_imu_` is set) is a parameter `adjust`.
* Published messages are modelled as a list of `Pub` events; `RCLCPP_WARN`
  and `RCLCPP_ERROR` lines become `warn…`/`err…` events, `RCLCPP_INFO` and
  debug printing are elided.  TF messages are modelled at the
  `tf2::Transform` level (rotation matrix + origin): the
  quaternion (de)serialisation `tf2::toMsg`/`fromMsg` of the broadcast
  message is transport plumbing outside the modelled core.
* `pcl::PointXYZI` keeps the geometric fields `x y z`; the intensity
  channel is carried through every modelled operation unchanged in the
  source order and no claim mentions it, so it is omitted.
* `cloudReceived` takes an `Option Scan` and returns
  `Option (State × List Pub)`: the argument is the possibly-null
  `ConstSharedPtr`, and a `none` result models the undefined behaviour of
  dereferencing a null pointer (`pcl::fromROSMsg(*msg, …)` at line 450).
-/

noncomputable section

namespace LidarLoc

/-- 3-vector of reals (`tf2::Vector3` / `Eigen::Vector3d`). -/
@[ext] structure Vec3 where
  x : ℝ
  y : ℝ
  z : ℝ

def Vec3.add (a b : Vec3) : Vec3 := ⟨a.x + b.x, a.y + b.y, a.z + b.z⟩

def Vec3.neg (a : Vec3) : Vec3 := ⟨-a.x, -a.y, -a.z⟩

def Vec3.smul (c : ℝ) (a : Vec3) : Vec3 := ⟨c * a.x, c * a.y, c * a.z⟩

/-- Quaternion with the `geometry_msgs` field order x, y, z, w. -/
@[ext] structure Quat where
  x : ℝ
  y : ℝ
  z : ℝ
  w : ℝ

/-- Hamilton product, as in `Eigen::Quaterniond::operator*` and
`tf2::Quaternion::operator*`. -/
def Quat.mul (p q : Quat) : Quat :=
  ⟨p.w * q.x + p.x * q.w + p.y * q.z - p.z * q.y,
   p.w * q.y - p.x * q.z + p.y * q.w + p.z * q.x,
   p.w * q.z + p.x * q.y - p.y * q.x + p.z * q.w,
   p.w * q.w - p.x * q.x - p.y * q.y - p.z * q.z⟩

/-- `tf2::Quaternion::length2`: squared norm of a quaternion. -/
def quatNormSq (q : Quat) : ℝ := q.x * q.x + q.y * q.y + q.z * q.z + q.w * q.w

/-- Row-major 3×3 real matrix (`tf2::Matrix3x3` / `Eigen::Matrix3d`);
field `ab` is the entry in row `a`, column `b`. -/
@[ext] structure Mat3 where
  xx : ℝ
  xy : ℝ
  xz : ℝ
  yx : ℝ
  yy : ℝ
  yz : ℝ
  zx : ℝ
  zy : ℝ
  zz : ℝ

def Mat3.id : Mat3 := ⟨1, 0, 0, 0, 1, 0, 0, 0, 1⟩

def Mat3.mul (a b : Mat3) : Mat3 :=
  ⟨a.xx * b.xx + a.xy * b.yx + a.xz * b.zx,
   a.xx * b.xy + a.xy * b.yy + a.xz * b.zy,
   a.xx * b.xz + a.xy * b.yz + a.xz * b.zz,
   a.yx * b.xx + a.yy * b.yx + a.yz * b.zx,
   a.yx * b.xy + a.yy * b.yy + a.yz * b.zy,
   a.yx * b.xz + a.yy * b.yz + a.yz * b.zz,
   a.zx * b.xx + a.zy * b.yx + a.zz * b.zx,
   a.zx * b.xy + a.zy * b.yy + a.zz * b.zy,
   a.zx * b.xz + a.zy * b.yz + a.zz * b.zz⟩

def Mat3.mulVec (m : Mat3) (v : Vec3) : Vec3 :=
  ⟨m.xx * v.x + m.xy * v.y + m.xz * v.z,
   m.yx * v.x + m.yy * v.y + m.yz * v.z,
   m.zx * v.x + m.zy * v.y + m.zz * v.z⟩

def Mat3.transpose (m : Mat3) : Mat3 :=
  ⟨m.xx, m.yx, m.zx, m.xy, m.yy, m.zy, m.xz, m.yz, m.zz⟩

/-- Entrywise scaling, as in `quat_eig.matrix() * dt_odom`. -/
def Mat3.smul (m : Mat3) (c : ℝ) : Mat3 :=
  ⟨m.xx * c, m.xy * c, m.xz * c,
   m.yx * c, m.yy * c, m.yz * c,
   m.zx * c, m.zy * c, m.zz * c⟩

/-- Two-argument arctangent with the `atan2` quadrant conventions of libm
(signed zeros collapse to the single real `0`). -/
def atan2 (y x : ℝ) : ℝ :=
  if 0 < x then Real.arctan (y / x)
  else if x < 0 then
    (if 0 ≤ y then Real.arctan (y / x) + Real.pi else Real.arctan (y / x) - Real.pi)
  else
    (if 0 < y then Real.pi / 2 else if y < 0 then -(Real.pi / 2) else 0)

/-- `tf2::Matrix3x3::setRotation`: rotation matrix from a (not necessarily
unit) quaternion, with `d = length2`, `s = 2/d`. -/
def tf2SetRotation (q : Quat) : Mat3 :=
  let d := quatNormSq q
  let s := 2 / d
  let xs := q.x * s
  let ys := q.y * s
  let zs := q.z * s
  let wx := q.w * xs
  let wy := q.w * ys
  let wz := q.w * zs
  let xx := q.x * xs
  let xy := q.x * ys
  let xz := q.x * zs
  let yy := q.y * ys
  let yz := q.y * zs
  let zz := q.z * zs
  ⟨1 - (yy + zz), xy - wz, xz + wy,
   xy + wz, 1 - (xx + zz), yz - wx,
   xz - wy, yz + wx, 1 - (xx + yy)⟩

/-- `Eigen::Quaternion::toRotationMatrix` (also used by
`tf2::transformToEigen` and `tf2::fromMsg` into `Eigen::Affine3d`):
rotation matrix of a quaternion assumed to be normalised. -/
def eigenQuatToMat (q : Quat) : Mat3 :=
  let tx := 2 * q.x
  let ty := 2 * q.y
  let tz := 2 * q.z
  let twx := tx * q.w
  let twy := ty * q.w
  let twz := tz * q.w
  let txx := tx * q.x
  let txy := ty * q.x
  let txz := tz * q.x
  let tyy := ty * q.y
  let tyz := tz * q.y
  let tzz := tz * q.z
  ⟨1 - (tyy + tzz), txy - twz, txz + twy,
   txy + twz, 1 - (txx + tzz), tyz - twx,
   txz - twy, tyz + twx, 1 - (txx + tyy)⟩

/-- `Eigen::Quaternion` construction from a rotation matrix
(`Eigen::internal::quaternionbase_assign_impl::run`), used at line 520:
`Eigen::Quaterniond quat_eig(rot_mat)`.  Branches on the trace and, in the
non-positive-trace case, on the largest diagonal element `i` with
`j = (i+1)%3`, `k = (j+1)%3`. -/
def eigenQuatFromMat (m : Mat3) : Quat :=
  let t := m.xx + m.yy + m.zz
  if 0 < t then
    let s := Real.sqrt (t + 1)
    ⟨(m.zy - m.yz) * (1 / 2 / s), (m.xz - m.zx) * (1 / 2 / s),
     (m.yx - m.xy) * (1 / 2 / s), 1 / 2 * s⟩
  else
    if m.xx < m.yy then
      if m.yy < m.zz then
        let s := Real.sqrt (m.zz - m.xx - m.yy + 1)
        ⟨(m.xz + m.zx) * (1 / 2 / s), (m.yz + m.zy) * (1 / 2 / s),
         1 / 2 * s, (m.yx - m.xy) * (1 / 2 / s)⟩
      else
        let s := Real.sqrt (m.yy - m.zz - m.xx + 1)
        ⟨(m.xy + m.yx) * (1 / 2 / s), 1 / 2 * s,
         (m.zy + m.yz) * (1 / 2 / s), (m.xz - m.zx) * (1 / 2 / s)⟩
    else
      if m.xx < m.zz then
        let s := Real.sqrt (m.zz - m.xx - m.yy + 1)
        ⟨(m.xz + m.zx) * (1 / 2 / s), (m.yz + m.zy) * (1 / 2 / s),
         1 / 2 * s, (m.yx - m.xy) * (1 / 2 / s)⟩
      else
        let s := Real.sqrt (m.xx - m.yy - m.zz + 1)
        ⟨1 / 2 * s, (m.yx + m.xy) * (1 / 2 / s),
         (m.zx + m.xz) * (1 / 2 / s), (m.zy - m.yz) * (1 / 2 / s)⟩

/-- `tf2::Matrix3x3::getEulerYPR` with `solution_number = 1`, returning
`(yaw, pitch, roll)`. -/
def tf2GetEulerYPR (m : Mat3) : ℝ × ℝ × ℝ :=
  if 1 ≤ |m.zx| then
    if m.zx < 0 then (0, Real.pi / 2, atan2 m.xy m.xz)
    else (0, -(Real.pi / 2), atan2 (-m.xy) (-m.xz))
  else
    let pitch := -Real.arcsin m.zx
    (atan2 (m.yx / Real.cos pitch) (m.xx / Real.cos pitch), pitch,
     atan2 (m.zy / Real.cos pitch) (m.zz / Real.cos pitch))

/-- `tf2::Matrix3x3::getRPY` (line 375): swaps `getEulerYPR`'s output into
`(roll, pitch, yaw)` order. -/
def tf2GetRPY (m : Mat3) : ℝ × ℝ × ℝ :=
  ((tf2GetEulerYPR m).2.2, (tf2GetEulerYPR m).2.1, (tf2GetEulerYPR m).1)

/-- `Eigen::AngleAxisd(theta, Eigen::Vector3d::UnitX())` as a quaternion. -/
def axisAngleQuatX (theta : ℝ) : Quat :=
  ⟨Real.sin (theta / 2), 0, 0, Real.cos (theta / 2)⟩

/-- `Eigen::AngleAxisd(theta, Eigen::Vector3d::UnitY())` as a quaternion. -/
def axisAngleQuatY (theta : ℝ) : Quat :=
  ⟨0, Real.sin (theta / 2), 0, Real.cos (theta / 2)⟩

/-- `Eigen::AngleAxisd(theta, Eigen::Vector3d::UnitZ())` as a quaternion. -/
def axisAngleQuatZ (theta : ℝ) : Quat :=
  ⟨0, 0, Real.sin (theta / 2), Real.cos (theta / 2)⟩

/-- `tf2::Transform`: rotation basis plus translation origin. -/
@[ext] structure Transform where
  basis : Mat3
  origin : Vec3

/-- `tf2::Transform::operator*`:
`(t1*t2).basis = t1.basis * t2.basis`, `(t1*t2).origin = t1(t2.origin)`. -/
def Transform.mul (t1 t2 : Transform) : Transform :=
  ⟨t1.basis.mul t2.basis, Vec3.add (t1.basis.mulVec t2.origin) t1.origin⟩

/-- `tf2::Transform::inverse`: transposed basis, origin `basisᵀ * (-origin)`. -/
def Transform.inverse (t : Transform) : Transform :=
  ⟨t.basis.transpose, t.basis.transpose.mulVec t.origin.neg⟩

/-- `geometry_msgs::msg::Transform`: quaternion rotation plus translation. -/
structure TransformMsg where
  rotation : Quat
  translation : Vec3

/-- `tf2::fromMsg` into a `tf2::Transform`: the basis is set from the
message quaternion via `setRotation`. -/
def tf2FromMsg (t : TransformMsg) : Transform :=
  ⟨tf2SetRotation t.rotation, t.translation⟩

/-- `builtin_interfaces::msg::Time`: `sec` and `nanosec` fields. -/
structure Stamp where
  sec : ℤ
  nanosec : ℕ

/-- `stamp.sec + stamp.nanosec * 1e-9`, the conversion used at lines
358 and 477. -/
def Stamp.toSec (st : Stamp) : ℝ := (st.sec : ℝ) + (st.nanosec : ℝ) * 1e-9

/-- One `pcl::PointXYZI` (intensity channel omitted, see file header). -/
@[ext] structure Point where
  x : ℝ
  y : ℝ
  z : ℝ

/-- A `sensor_msgs::msg::PointCloud2` scan: stamp, frame id and points. -/
structure Scan where
  stamp : Stamp
  frame : String
  points : List Point

/-- `geometry_msgs` pose: position plus orientation quaternion. -/
structure Pose where
  position : Vec3
  orientation : Quat

/-- `geometry_msgs::msg::PoseWithCovarianceStamped` (covariance is never
read or written by the component and is omitted). -/
structure PoseWithCovStamped where
  stamp : Stamp
  frame : String
  pose : Pose

/-- `geometry_msgs::msg::PoseStamped`, the entries of `path_ptr_->poses`. -/
structure PoseStamped where
  stamp : Stamp
  frame : String
  pose : Pose

/-- `nav_msgs::msg::Odometry` as read by `odomReceived`: stamp and the
twist's linear and angular velocity. -/
structure OdomMsg where
  stamp : Stamp
  linear : Vec3
  angular : Vec3

/-- The oracle's answer: `getFinalTransformation()` split into its rotation
block and translation column, `hasConverged()` and `getFitnessScore()`. -/
structure AlignResult where
  rotation : Mat3
  translation : Vec3
  hasConverged : Bool
  fitnessScore : ℝ

/-- The mutable state of `PCLLocalization` touched by the modelled
handlers.  Field names follow the C++ members (including the
`corrent`/`recieved` spellings). -/
structure State where
  globalFrameId : String
  odomFrameId : String
  baseFrameId : String
  enableMapOdomTf : Bool
  scoreThreshold : ℝ
  voxelLeafSize : ℝ
  scanMaxRange : ℝ
  scanMinRange : ℝ
  useOdom : Bool
  useImu : Bool
  mapRecieved : Bool
  initialposeRecieved : Bool
  correntPose : PoseWithCovStamped
  path : List PoseStamped
  lastScan : Option Scan
  lastOdomReceivedTime : ℝ

/-- Observable outputs of one handler invocation: publisher calls,
transform broadcasts and warning/error log lines. -/
inductive Pub
  | pose (p : PoseWithCovStamped)
  | path (entries : List PoseStamped)
  | tf (parent child : String) (t : Transform)
  | warnNotConverged
  | warnFitnessOver
  | warnOdomTfFailed
  | errScanTfFailed
  | warnFrameMismatch
  | warnOdomDtLarge
  | warnOdomDtNegative

/-- `tf2::transformToEigen` applied to a point, line 469-472: rotate by the
Eigen rotation matrix of the message quaternion, then translate. -/
def applyTransformMsg (t : TransformMsg) (p : Point) : Point :=
  let v := (eigenQuatToMat t.rotation).mulVec ⟨p.x, p.y, p.z⟩
  ⟨v.x + t.translation.x, v.y + t.translation.y, v.z + t.translation.z⟩

/-- Voxel key of a point: `floor(coord * (1 / leaf_size))` per axis, as in
`pcl::VoxelGrid` (`ijk0/1/2` before the `min_b_` shift, which cancels in
grouping and ordering). -/
def voxelKey (leaf : ℝ) (p : Point) : ℤ × ℤ × ℤ :=
  (⌊p.x * (1 / leaf)⌋, ⌊p.y * (1 / leaf)⌋, ⌊p.z * (1 / leaf)⌋)

/-- Strict order of `pcl::VoxelGrid`'s linearised voxel index
`i + j*div_x + k*div_x*div_y`: lexicographic on `(k, j, i)`. -/
def keyLt (a b : ℤ × ℤ × ℤ) : Bool :=
  a.2.2 < b.2.2 ∨ (a.2.2 = b.2.2 ∧ (a.2.1 < b.2.1 ∨ (a.2.1 = b.2.1 ∧ a.1 < b.1)))

def insertKey (k : ℤ × ℤ × ℤ) : List (ℤ × ℤ × ℤ) → List (ℤ × ℤ × ℤ)
  | [] => [k]
  | a :: rest => if keyLt k a then k :: a :: rest else a :: insertKey k rest

/-- Insertion sort by ascending linearised voxel index (the order in which
`pcl::VoxelGrid` emits its centroids after sorting `index_vector`). -/
def sortKeys (l : List (ℤ × ℤ × ℤ)) : List (ℤ × ℤ × ℤ) :=
  l.foldr insertKey []

def dedupKeys : List (ℤ × ℤ × ℤ) → List (ℤ × ℤ × ℤ)
  | [] => []
  | k :: rest =>
    let r := dedupKeys rest
    if k ∈ r then r else k :: r

/-- Centroid of a non-empty point list (`pcl::VoxelGrid` accumulates and
divides by the per-voxel count; real addition is commutative so the
accumulation order is irrelevant). -/
def centroid (l : List Point) : Point :=
  ⟨(l.map Point.x).sum / l.length, (l.map Point.y).sum / l.length,
   (l.map Point.z).sum / l.length⟩

/-- `voxel_grid_filter_.filter` (leaf size set once in
`initializeRegistration`): group points by voxel, emit one centroid per
occupied voxel in ascending linearised-index order.  An empty input cloud
stays empty. -/
def voxelGridFilter (leaf : ℝ) (pts : List Point) : List Point :=
  match pts with
  | [] => []
  | _ =>
    (sortKeys (dedupKeys (pts.map (voxelKey leaf)))).map fun key =>
      centroid (pts.filter fun p => voxelKey leaf p = key)

/-- The range-filter loop at lines 486-493: keep `p` iff
`scan_min_range_ < sqrt(x² + y²) < scan_max_range_`, preserving order. -/
def rangeFilter (minRange maxRange : ℝ) : List Point → List Point
  | [] => []
  | p :: rest =>
    if minRange < Real.sqrt (p.x ^ 2 + p.y ^ 2) ∧
        Real.sqrt (p.x ^ 2 + p.y ^ 2) < maxRange then
      p :: rangeFilter minRange maxRange rest
    else rangeFilter minRange maxRange rest

/-- Steps 1-4 of `cloudReceived` (lines 452-494): optional re-framing into
`base_frame_id_` (aborting when the lookup fails), optional IMU deskewing,
then voxel downsampling followed by range filtering.  The result is the
cloud handed to `registration_->setInputSource`. -/
def processedCloud (adjust : List Point → ℝ → List Point)
    (scanTf : Option TransformMsg) (s : State) (m : Scan) :
    Option (List Point) :=
  let step1 : Option (List Point) :=
    if m.frame = s.baseFrameId then some m.points
    else
      match scanTf with
      | none => none
      | some t => some (m.points.map (applyTransformMsg t))
  match step1 with
  | none => none
  | some cloud1 =>
    let cloud2 := if s.useImu = true then adjust cloud1 m.stamp.toSec else cloud1
    some (rangeFilter s.scanMinRange s.scanMaxRange (voxelGridFilter s.voxelLeafSize cloud2))

/-- Lines 497-500: the initial guess handed to the oracle is the current
estimate's pose as an affine transform (`tf2::fromMsg` into
`Eigen::Affine3d`). -/
def initGuess (s : State) : Transform :=
  ⟨eigenQuatToMat s.correntPose.pose.orientation, s.correntPose.pose.position⟩

/-- Lines 518-528: the updated estimate — position from the final
transformation's translation column, orientation from
`Eigen::Quaterniond(rot_mat)`, stamped with the scan time in the global
frame. -/
def cyclePose (r : AlignResult) (m : Scan) (s : State) : PoseWithCovStamped :=
  ⟨m.stamp, s.globalFrameId, ⟨r.translation, eigenQuatFromMat r.rotation⟩⟩

/-- Line 514-516: a fitness score above `score_threshold_` produces a
warning and nothing else. -/
def fitnessWarnList (s : State) (r : AlignResult) : List Pub :=
  if s.scoreThreshold < r.fitnessScore then [Pub.warnFitnessOver] else []

/-- Lines 531-543: `map_to_base_link` as a `tf2::Transform` — basis set
from the quaternion `quat_msg` via `setRotation`, origin from the final
transformation's translation. -/
def mapToBaseTf (r : AlignResult) : Transform :=
  ⟨tf2SetRotation (eigenQuatFromMat r.rotation), r.translation⟩

/-- Line 558: `map_to_odom_tf = map_to_base_link_tf *
odom_to_base_link_tf.inverse()`. -/
def mapToOdomTf (r : AlignResult) (o : TransformMsg) : Transform :=
  (mapToBaseTf r).mul (tf2FromMsg o).inverse

/-- Lines 567-571: the `PoseStamped` appended to the path. -/
def pathEntry (r : AlignResult) (m : Scan) (s : State) : PoseStamped :=
  ⟨m.stamp, s.globalFrameId, (cyclePose r m s).pose⟩

/-- The state after a fully accepted cycle: estimate updated, path entry
appended, scan remembered as `last_scan_ptr_`. -/
def acceptState (s : State) (r : AlignResult) (m : Scan) : State :=
  { s with
    correntPose := cyclePose r m s
    path := s.path ++ [pathEntry r m s]
    lastScan := some m }

/-- `PCLLocalization::cloudReceived` (lines 445-599).  `none` models the
null-pointer dereference of `*msg` when the handler is entered with a null
`last_scan_ptr_` from `initialPoseReceived`; every other path returns the
new state and its outputs. -/
def cloudReceived (align : List Point → Transform → AlignResult)
    (adjust : List Point → ℝ → List Point)
    (scanTf odomTf : Option TransformMsg)
    (s : State) (msg : Option Scan) : Option (State × List Pub) :=
  if s.mapRecieved = true ∧ s.initialposeRecieved = true then
    match msg with
    | none => none
    | some m =>
      match processedCloud adjust scanTf s m with
      | none => some (s, [Pub.errScanTfFailed])
      | some pc =>
        let r := align pc (initGuess s)
        if r.hasConverged = true then
          let newPose := cyclePose r m s
          let tfPub : Option Pub :=
            if s.enableMapOdomTf = false then
              some (Pub.tf s.globalFrameId s.baseFrameId (mapToBaseTf r))
            else
              match odomTf with
              | none => none
              | some o => some (Pub.tf s.globalFrameId s.odomFrameId (mapToOdomTf r o))
          match tfPub with
          | none =>
            some ({ s with correntPose := newPose },
              fitnessWarnList s r ++ [Pub.pose newPose, Pub.warnOdomTfFailed])
          | some tp =>
            some (acceptState s r m,
              fitnessWarnList s r ++
                [Pub.pose newPose, tp, Pub.path (s.path ++ [pathEntry r m s])])
        else some (s, [Pub.warnNotConverged])
  else some (s, [])

/-- `PCLLocalization::initialPoseReceived` (lines 312-325): reject a frame
mismatch with a warning; otherwise arm the gate, overwrite the estimate,
publish it and replay `cloudReceived` on `last_scan_ptr_`. -/
def initialPoseReceived (align : List Point → Transform → AlignResult)
    (adjust : List Point → ℝ → List Point)
    (scanTf odomTf : Option TransformMsg)
    (s : State) (msg : PoseWithCovStamped) : Option (State × List Pub) :=
  if msg.frame = s.globalFrameId then
    let s1 := { s with initialposeRecieved := true, correntPose := msg }
    match cloudReceived align adjust scanTf odomTf s1 s1.lastScan with
    | none => none
    | some (s2, pubs) => some (s2, Pub.pose msg :: pubs)
  else some (s, [Pub.warnFrameMismatch])

/-- `PCLLocalization::odomReceived` (lines 353-398): dt guards, RPY
decomposition of the current orientation, per-axis Euler integration,
axis-angle recomposition in roll-pitch-yaw order and position update by
`quat_eig.matrix() * dt_odom * odom`. -/
def odomReceived (s : State) (msg : OdomMsg) : State × List Pub :=
  if s.useOdom = true then
    let currentOdomReceivedTime := msg.stamp.toSec
    let dtOdom := currentOdomReceivedTime - s.lastOdomReceivedTime
    let s0 := { s with lastOdomReceivedTime := currentOdomReceivedTime }
    if 1 < dtOdom then (s0, [Pub.warnOdomDtLarge])
    else if dtOdom < 0 then (s0, [Pub.warnOdomDtNegative])
    else
      let rpy := tf2GetRPY (tf2SetRotation s.correntPose.pose.orientation)
      let roll := rpy.1 + msg.angular.x * dtOdom
      let pitch := rpy.2.1 + msg.angular.y * dtOdom
      let yaw := rpy.2.2 + msg.angular.z * dtOdom
      let quatEig :=
        Quat.mul (Quat.mul (axisAngleQuatX roll) (axisAngleQuatY pitch)) (axisAngleQuatZ yaw)
      let deltaPosition := ((eigenQuatToMat quatEig).smul dtOdom).mulVec msg.linear
      ({ s0 with
          correntPose := { s0.correntPose with
            pose := ⟨Vec3.add s0.correntPose.pose.position deltaPosition, quatEig⟩ } }, [])
  else (s, [])

/-- Modelled from the spec's §4.1 algorithm, with "the current orientation
frame" read as the PRE-update orientation (the reading asserted by the
claim): decompose the orientation to roll/pitch/yaw, integrate each axis
by `angular_velocity * dt`, recompose roll-then-pitch-then-yaw, and add
`dt * (R(old orientation) * linear velocity)` to the position. -/
def specPredictPre (p : Pose) (msg : OdomMsg) (dt : ℝ) : Pose :=
  let rpy := tf2GetRPY (tf2SetRotation p.orientation)
  let q :=
    Quat.mul
      (Quat.mul (axisAngleQuatX (rpy.1 + msg.angular.x * dt))
        (axisAngleQuatY (rpy.2.1 + msg.angular.y * dt)))
      (axisAngleQuatZ (rpy.2.2 + msg.angular.z * dt))
  ⟨Vec3.add p.position (Vec3.smul dt ((eigenQuatToMat p.orientation).mulVec msg.linear)), q⟩

/-- The spec's §4.1 algorithm with "the current orientation frame" read as
the POST-update (freshly recomposed) orientation: identical to
`specPredictPre` except that the body-frame velocity is rotated by the new
quaternion before being scaled by `dt` and added to the position. -/
def specPredictPost (p : Pose) (msg : OdomMsg) (dt : ℝ) : Pose :=
  let rpy := tf2GetRPY (tf2SetRotation p.orientation)
  let q :=
    Quat.mul
      (Quat.mul (axisAngleQuatX (rpy.1 + msg.angular.x * dt))
        (axisAngleQuatY (rpy.2.1 + msg.angular.y * dt)))
      (axisAngleQuatZ (rpy.2.2 + msg.angular.z * dt))
  ⟨Vec3.add p.position (Vec3.smul dt ((eigenQuatToMat q).mulVec msg.linear)), q⟩

theorem Mat3.mul_assoc (a b c : Mat3) : (a.mul b).mul c = a.mul (b.mul c) := by
  ext <;> simp [Mat3.mul] <;> ring

theorem Mat3.mul_ident (a : Mat3) : a.mul Mat3.id = a := by
  ext <;> simp [Mat3.mul, Mat3.id]

set_option maxHeartbeats 1600000 in
/-- The `setRotation` matrix of any non-degenerate quaternion is
orthogonal: `setRotation` normalises by `length2`, so the result is the
rotation of the unit quaternion `q / |q|`. -/
theorem tf2SetRotation_orthogonal (q : Quat) (h : quatNormSq q ≠ 0) :
    (tf2SetRotation q).transpose.mul (tf2SetRotation q) = Mat3.id := by
  have h' : q.x * q.x + q.y * q.y + q.z * q.z + q.w * q.w ≠ 0 := by
    simpa [quatNormSq] using h
  ext <;> simp only [Mat3.mul, Mat3.transpose, Mat3.id, tf2SetRotation, quatNormSq] <;>
    field_simp <;> ring

theorem Mat3.mulVec_mulVec (a b : Mat3) (v : Vec3) :
    (a.mul b).mulVec v = a.mulVec (b.mulVec v) := by
  ext <;> simp [Mat3.mul, Mat3.mulVec] <;> ring

/-- Composing `A * B⁻¹` with `B` recovers `A` whenever `B`'s basis is
orthogonal. -/
theorem Transform.mul_inverse_cancel (A B : Transform)
    (h : B.basis.transpose.mul B.basis = Mat3.id) :
    (A.mul B.inverse).mul B = A := by
  ext1
  · show ((A.basis.mul B.basis.transpose).mul B.basis) = A.basis
    rw [Mat3.mul_assoc, h, Mat3.mul_ident]
  · show Vec3.add ((A.basis.mul B.basis.transpose).mulVec B.origin)
      (Vec3.add (A.basis.mulVec (B.basis.transpose.mulVec B.origin.neg)) A.origin) = A.origin
    rw [Mat3.mulVec_mulVec]
    ext <;> simp [Mat3.mulVec, Vec3.add, Vec3.neg] <;> ring

theorem Mat3.smul_mulVec (m : Mat3) (c : ℝ) (v : Vec3) :
    (m.smul c).mulVec v = Vec3.smul c (m.mulVec v) := by
  ext <;> simp [Mat3.smul, Mat3.mulVec, Vec3.smul] <;> ring

/-- Shared evaluation lemma: an accepted cycle with odom decoupling
disabled publishes warning(s), pose, the global→base transform and the
extended path, and moves to `acceptState`. -/
theorem cloudReceived_accepted (align : List Point → Transform → AlignResult)
    (adjust : List Point → ℝ → List Point) (scanTf odomTf : Option TransformMsg)
    (s : State) (m : Scan) (pc : List Point) (r : AlignResult)
    (hmap : s.mapRecieved = true) (hip : s.initialposeRecieved = true)
    (hpc : processedCloud adjust scanTf s m = some pc)
    (hr : r = align pc (initGuess s)) (hconv : r.hasConverged = true)
    (hd : s.enableMapOdomTf = false) :
    cloudReceived align adjust scanTf odomTf s (some m) =
      some (acceptState s r m,
        fitnessWarnList s r ++
          [Pub.pose (cyclePose r m s),
           Pub.tf s.globalFrameId s.baseFrameId (mapToBaseTf r),
           Pub.path (s.path ++ [pathEntry r m s])]) := by
  simp only [cloudReceived, hmap, hip, and_self, if_true, hpc, ← hr, hconv, hd,
    Bool.false_eq_true, if_false]

/-- Shared evaluation lemma: an accepted cycle with odom decoupling
enabled and a successful odom→base lookup publishes the global→odom
transform `mapToOdomTf`. -/
theorem cloudReceived_accepted_odom (align : List Point → Transform → AlignResult)
    (adjust : List Point → ℝ → List Point) (scanTf : Option TransformMsg)
    (o : TransformMsg) (s : State) (m : Scan) (pc : List Point) (r : AlignResult)
    (hmap : s.mapRecieved = true) (hip : s.initialposeRecieved = true)
    (hpc : processedCloud adjust scanTf s m = some pc)
    (hr : r = align pc (initGuess s)) (hconv : r.hasConverged = true)
    (htf : s.enableMapOdomTf = true) :
    cloudReceived align adjust scanTf (some o) s (some m) =
      some (acceptState s r m,
        fitnessWarnList s r ++
          [Pub.pose (cyclePose r m s),
           Pub.tf s.globalFrameId s.odomFrameId (mapToOdomTf r o),
           Pub.path (s.path ++ [pathEntry r m s])]) := by
  simp only [cloudReceived, hmap, hip, and_self, if_true, hpc, ← hr, hconv, htf,
    Bool.true_eq_false, if_false]

/-- C1: for every accepted scan cycle with odom decoupling enabled in which
the odom→base lookup succeeds (with a non-degenerate quaternion), the cycle
publishes the global→odom transform `mapToOdomTf r o = (global→base) ·
(odom→base)⁻¹`, and that transform composed with the looked-up odom→base
transform equals the cycle's global→base transform `mapToBaseTf r` built
from the oracle's final transformation — exactly, hence within any
numerical tolerance. -/
theorem cloudReceived_map_odom_chain (align : List Point → Transform → AlignResult)
    (adjust : List Point → ℝ → List Point) (scanTf : Option TransformMsg)
    (o : TransformMsg) (s : State) (m : Scan) (pc : List Point) (r : AlignResult)
    (hmap : s.mapRecieved = true) (hip : s.initialposeRecieved = true)
    (hpc : processedCloud adjust scanTf s m = some pc)
    (hr : r = align pc (initGuess s)) (hconv : r.hasConverged = true)
    (htf : s.enableMapOdomTf = true)
    (hq : quatNormSq o.rotation ≠ 0) :
    cloudReceived align adjust scanTf (some o) s (some m) =
      some (acceptState s r m,
        fitnessWarnList s r ++
          [Pub.pose (cyclePose r m s),
           Pub.tf s.globalFrameId s.odomFrameId (mapToOdomTf r o),
           Pub.path (s.path ++ [pathEntry r m s])])
    ∧ (mapToOdomTf r o).mul (tf2FromMsg o) = mapToBaseTf r := by
  refine ⟨cloudReceived_accepted_odom align adjust scanTf o s m pc r hmap hip hpc hr hconv htf, ?_⟩
  exact Transform.mul_inverse_cancel (mapToBaseTf r) (tf2FromMsg o)
    (tf2SetRotation_orthogonal o.rotation hq)

/-- C2: whenever the oracle reports `converged = false`, the cycle aborts
with only the non-convergence warning: the state — current estimate,
trajectory and remembered last scan included — is returned unchanged, and
no pose, path or transform event is produced. -/
theorem cloudReceived_nonconverged_no_effect (align : List Point → Transform → AlignResult)
    (adjust : List Point → ℝ → List Point) (scanTf odomTf : Option TransformMsg)
    (s : State) (m : Scan) (pc : List Point)
    (hmap : s.mapRecieved = true) (hip : s.initialposeRecieved = true)
    (hpc : processedCloud adjust scanTf s m = some pc)
    (hconv : (align pc (initGuess s)).hasConverged = false) :
    cloudReceived align adjust scanTf odomTf s (some m) =
      some (s, [Pub.warnNotConverged]) := by
  simp only [cloudReceived, hmap, hip, and_self, if_true, hpc, hconv,
    Bool.false_eq_true, if_false]

/-- C3: when alignment converges with odom decoupling enabled but the
odom→base lookup fails, the estimate is already updated and the pose
already published, while no transform, no path entry and no remembered
scan are produced — the partial-failure asymmetry. -/
theorem cloudReceived_tf_lookup_failure_pose_only (align : List Point → Transform → AlignResult)
    (adjust : List Point → ℝ → List Point) (scanTf : Option TransformMsg)
    (s : State) (m : Scan) (pc : List Point) (r : AlignResult)
    (hmap : s.mapRecieved = true) (hip : s.initialposeRecieved = true)
    (hpc : processedCloud adjust scanTf s m = some pc)
    (hr : r = align pc (initGuess s)) (hconv : r.hasConverged = true)
    (htf : s.enableMapOdomTf = true) :
    cloudReceived align adjust scanTf none s (some m) =
      some ({ s with correntPose := cyclePose r m s },
        fitnessWarnList s r ++ [Pub.pose (cyclePose r m s), Pub.warnOdomTfFailed]) := by
  simp only [cloudReceived, hmap, hip, and_self, if_true, hpc, ← hr, hconv, htf,
    Bool.true_eq_false, if_false]

/-- C4: a converged result whose fitness score exceeds the threshold is
accepted exactly like an under-threshold one — same new state (estimate
from the oracle's final transform, path extended, scan remembered) and
same pose/transform/path publications — except for one extra warning
event.  The second conjunct runs the identical cycle with the fitness
score clamped to the threshold (not over it) and produces the identical
output minus the warning. -/
theorem cloudReceived_fitness_soft_gate (align : List Point → Transform → AlignResult)
    (adjust : List Point → ℝ → List Point) (scanTf odomTf : Option TransformMsg)
    (s : State) (m : Scan) (pc : List Point) (r : AlignResult)
    (hmap : s.mapRecieved = true) (hip : s.initialposeRecieved = true)
    (hpc : processedCloud adjust scanTf s m = some pc)
    (hr : r = align pc (initGuess s)) (hconv : r.hasConverged = true)
    (hd : s.enableMapOdomTf = false)
    (hfit : s.scoreThreshold < r.fitnessScore) :
    cloudReceived align adjust scanTf odomTf s (some m) =
      some (acceptState s r m,
        Pub.warnFitnessOver ::
          [Pub.pose (cyclePose r m s),
           Pub.tf s.globalFrameId s.baseFrameId (mapToBaseTf r),
           Pub.path (s.path ++ [pathEntry r m s])])
    ∧ cloudReceived (fun c g => { align c g with fitnessScore := s.scoreThreshold })
        adjust scanTf odomTf s (some m) =
      some (acceptState s r m,
        [Pub.pose (cyclePose r m s),
         Pub.tf s.globalFrameId s.baseFrameId (mapToBaseTf r),
         Pub.path (s.path ++ [pathEntry r m s])]) := by
  constructor
  · rw [cloudReceived_accepted align adjust scanTf odomTf s m pc r hmap hip hpc hr hconv hd]
    simp [fitnessWarnList, hfit]
  · rw [cloudReceived_accepted (fun c g => { align c g with fitnessScore := s.scoreThreshold })
      adjust scanTf odomTf s m pc { r with fitnessScore := s.scoreThreshold }
      hmap hip hpc (by rw [hr]) (by simpa using hconv) hd]
    simp [fitnessWarnList, acceptState, cyclePose, mapToBaseTf, pathEntry]

/-- C6: an initial pose whose frame differs from the configured global
frame is rejected outright — the state (estimate, trajectory, tracking
gate, remembered scan) is returned unchanged, and the only observable
effect is the frame-mismatch warning, with no pose/path/tf event and no
replay of the scan cycle. -/
theorem initialPoseReceived_frame_mismatch (align : List Point → Transform → AlignResult)
    (adjust : List Point → ℝ → List Point) (scanTf odomTf : Option TransformMsg)
    (s : State) (msg : PoseWithCovStamped)
    (h : msg.frame ≠ s.globalFrameId) :
    initialPoseReceived align adjust scanTf odomTf s msg =
      some (s, [Pub.warnFrameMismatch]) := by
  simp only [initialPoseReceived, h, if_false]

/-- C7: an odometry sample whose elapsed time since the previous sample is
negative or greater than the 1.0 s threshold leaves the current estimate
(position and orientation both) exactly unchanged: the prediction step is
skipped. -/
theorem odomReceived_dt_guard (s : State) (msg : OdomMsg)
    (h : msg.stamp.toSec - s.lastOdomReceivedTime < 0 ∨
      1 < msg.stamp.toSec - s.lastOdomReceivedTime) :
    (odomReceived s msg).1.correntPose = s.correntPose := by
  simp only [odomReceived]
  split_ifs with h1 h2 h3
  · rfl
  · rfl
  · exfalso; rcases h with h | h
    · exact h3 h
    · exact h2 h
  · rfl

/-- C9 (amended): steps 3 and 4 run in the opposite order to the claim —
the cloud handed to the oracle is the voxel-grid downsample applied
first, then the range filter: `rangeFilter ∘ voxelGridFilter`. -/
theorem processedCloud_downsample_before_range (adjust : List Point → ℝ → List Point)
    (scanTf : Option TransformMsg) (s : State) (m : Scan)
    (hframe : m.frame = s.baseFrameId) :
    processedCloud adjust scanTf s m =
      some (rangeFilter s.scanMinRange s.scanMaxRange
        (voxelGridFilter s.voxelLeafSize
          (if s.useImu = true then adjust m.points m.stamp.toSec else m.points))) := by
  simp only [processedCloud, hframe, if_true]

/-- C8 (amended): an accepted odometry sample updates the pose by
decomposing the current orientation into roll/pitch/yaw, integrating each
axis by `angular_velocity * dt`, recomposing the quaternion in fixed
roll-pitch-yaw axis-angle order, and integrating the position by rotating
the body-frame linear velocity into the POST-update orientation frame and
adding `velocity * dt`. -/
theorem odomReceived_accepted_matches_spec_post (s : State) (msg : OdomMsg)
    (hu : s.useOdom = true)
    (h0 : 0 ≤ msg.stamp.toSec - s.lastOdomReceivedTime)
    (h1 : msg.stamp.toSec - s.lastOdomReceivedTime ≤ 1) :
    (odomReceived s msg).1.correntPose.pose =
      specPredictPost s.correntPose.pose msg
        (msg.stamp.toSec - s.lastOdomReceivedTime) := by
  simp only [odomReceived, specPredictPost, hu, if_true]
  rw [if_neg (by linarith), if_neg (by linarith)]
  simp only [Mat3.smul_mulVec]

/-- C5 (amended): an initial pose in the configured global frame arms the
tracking gate, overwrites the current estimate, publishes the supplied
pose first, and immediately replays the scan cycle on the remembered last
scan; a successful replay publishes a fresh pose/transform/path without a
new scan event and appends the replay's ALIGNED pose to the trajectory —
the supplied pose itself is never appended by this handler. -/
theorem initialPoseReceived_replay (align : List Point → Transform → AlignResult)
    (adjust : List Point → ℝ → List Point) (scanTf odomTf : Option TransformMsg)
    (s s1 : State) (msg : PoseWithCovStamped) (sc : Scan) (pc : List Point) (r : AlignResult)
    (hframe : msg.frame = s.globalFrameId)
    (hs1 : s1 = { s with initialposeRecieved := true, correntPose := msg })
    (hmap : s.mapRecieved = true)
    (hlast : s.lastScan = some sc)
    (hpc : processedCloud adjust scanTf s1 sc = some pc)
    (hr : r = align pc (initGuess s1)) (hconv : r.hasConverged = true)
    (hd : s.enableMapOdomTf = false) :
    initialPoseReceived align adjust scanTf odomTf s msg =
      some (acceptState s1 r sc,
        Pub.pose msg ::
          (fitnessWarnList s1 r ++
            [Pub.pose (cyclePose r sc s1),
             Pub.tf s1.globalFrameId s1.baseFrameId (mapToBaseTf r),
             Pub.path (s1.path ++ [pathEntry r sc s1])])) := by
  have hmap1 : s1.mapRecieved = true := by rw [hs1]; exact hmap
  have hip1 : s1.initialposeRecieved = true := by rw [hs1]
  have hd1 : s1.enableMapOdomTf = false := by rw [hs1]; exact hd
  simp only [initialPoseReceived, hframe, if_true]
  rw [← hs1, hlast]
  rw [cloudReceived_accepted align adjust scanTf odomTf s1 sc pc r hmap1 hip1 hpc hr hconv hd1]

theorem cloudReceived_isSome_of_some (align : List Point → Transform → AlignResult)
    (adjust : List Point → ℝ → List Point) (scanTf odomTf : Option TransformMsg)
    (s : State) (m : Scan) :
    (cloudReceived align adjust scanTf odomTf s (some m)).isSome = true := by
  simp only [cloudReceived]
  split
  · cases hpc : processedCloud adjust scanTf s m with
    | none => simp
    | some pc =>
      simp only []
      split
      · split
        · simp
        · simp
      · simp
  · simp

/-- C10: with a matching frame, the re-localisation replay crashes (the
per-scan handler dereferences the null `last_scan_ptr_` with no null
check) precisely when the map-present gate is set but no scan was ever
remembered; it is safe exactly when a last accepted scan exists or no map
has been received (in which case the entry gate returns early before
touching the pointer). -/
theorem initialPoseReceived_null_deref_iff (align : List Point → Transform → AlignResult)
    (adjust : List Point → ℝ → List Point) (scanTf odomTf : Option TransformMsg)
    (s : State) (msg : PoseWithCovStamped)
    (hframe : msg.frame = s.globalFrameId) :
    initialPoseReceived align adjust scanTf odomTf s msg = none ↔
      (s.mapRecieved = true ∧ s.lastScan = none) := by
  simp only [initialPoseReceived, hframe, if_true]
  cases hlast : s.lastScan with
  | none =>
    by_cases hmap : s.mapRecieved = true
    · have hcr : cloudReceived align adjust scanTf odomTf
          { s with initialposeRecieved := true, correntPose := msg, lastScan := none } none
          = none := by
        simp only [cloudReceived, hmap]
        simp
      rw [hcr]
      simp [hmap]
    · have hmapf : s.mapRecieved = false := by
        cases h : s.mapRecieved
        · rfl
        · exact absurd h hmap
      have hcr : cloudReceived align adjust scanTf odomTf
          { s with initialposeRecieved := true, correntPose := msg, lastScan := none } none
          = some ({ s with initialposeRecieved := true, correntPose := msg, lastScan := none },
              []) := by
        simp only [cloudReceived, hmapf]
        simp
      rw [hcr]
      simp [hmapf]
  | some sc =>
    obtain ⟨res, hres⟩ := Option.isSome_iff_exists.mp
      (cloudReceived_isSome_of_some align adjust scanTf odomTf
        { s with initialposeRecieved := true, correntPose := msg, lastScan := some sc } sc)
    rw [hres]
    simp

def idQuat : Quat := ⟨0, 0, 0, 1⟩

def zeroVec : Vec3 := ⟨0, 0, 0⟩

def stamp0 : Stamp := ⟨0, 0⟩

/-- A pose at the origin with identity orientation in the `map` frame. -/
def basePose : PoseWithCovStamped := ⟨stamp0, "map", ⟨zeroVec, idQuat⟩⟩

/-- A ready/tracking state with the component's default parameters
(`map`/`odom`/`base_link`, threshold 2.0, leaf 0.2, ranges [1, 100]). -/
def baseState : State where
  globalFrameId := "map"
  odomFrameId := "odom"
  baseFrameId := "base_link"
  enableMapOdomTf := false
  scoreThreshold := 2
  voxelLeafSize := 1 / 5
  scanMaxRange := 100
  scanMinRange := 1
  useOdom := true
  useImu := false
  mapRecieved := true
  initialposeRecieved := true
  correntPose := basePose
  path := []
  lastScan := none
  lastOdomReceivedTime := 0

def emptyScan : Scan := ⟨stamp0, "base_link", []⟩

/-- Identity deskewing stub. -/
def adjId : List Point → ℝ → List Point := fun c _ => c

/-- Oracle stub reporting non-convergence. -/
def alignNoConv : List Point → Transform → AlignResult := fun _ _ => ⟨Mat3.id, zeroVec, false, 0⟩

/-- A converged oracle answer: identity rotation, translation (7, 0, 0),
fitness 0. -/
def res7 : AlignResult := ⟨Mat3.id, ⟨7, 0, 0⟩, true, 0⟩

def alignConv7 : List Point → Transform → AlignResult := fun _ _ => res7

/-- Like `res7` but with fitness score 5, above the default threshold 2. -/
def res7HighFit : AlignResult := ⟨Mat3.id, ⟨7, 0, 0⟩, true, 5⟩

def alignHighFit : List Point → Transform → AlignResult := fun _ _ => res7HighFit

def idTransformMsg : TransformMsg := ⟨idQuat, zeroVec⟩

/-- A scan with an empty point list is processed to the empty cloud. -/
theorem processedCloud_nil (adjust : List Point → ℝ → List Point)
    (scanTf : Option TransformMsg) (s : State) (m : Scan)
    (hfr : m.frame = s.baseFrameId) (hpts : m.points = [])
    (hadj : adjust [] m.stamp.toSec = []) :
    processedCloud adjust scanTf s m = some [] := by
  simp only [processedCloud, hfr, if_true, hpts]
  have h1 : (if s.useImu = true then adjust [] m.stamp.toSec else []) = [] := by
    split_ifs with h
    · exact hadj
    · rfl
  rw [h1]
  rfl

theorem tf2SetRotation_id : tf2SetRotation idQuat = Mat3.id := by
  ext <;> simp [tf2SetRotation, quatNormSq, idQuat, Mat3.id]

theorem eigenQuatToMat_id : eigenQuatToMat idQuat = Mat3.id := by
  ext <;> simp [eigenQuatToMat, idQuat, Mat3.id]

theorem eigenQuatFromMat_id : eigenQuatFromMat Mat3.id = idQuat := by
  have h4 : Real.sqrt (1 + 1 + 1 + 1) = 2 := by
    rw [show (1 + 1 + 1 + 1 : ℝ) = 2 ^ 2 by norm_num, Real.sqrt_sq (by norm_num)]
  simp only [eigenQuatFromMat, Mat3.id]
  rw [if_pos (by norm_num)]
  ext <;> simp [h4, idQuat]

theorem atan2_zero_one : atan2 0 1 = 0 := by
  unfold atan2
  rw [if_pos one_pos]
  simp [Real.arctan_zero]

theorem tf2GetRPY_id : tf2GetRPY Mat3.id = (0, 0, 0) := by
  simp only [tf2GetRPY, tf2GetEulerYPR, Mat3.id]
  rw [if_neg (by norm_num)]
  simp [Real.arcsin_zero, Real.cos_zero, atan2_zero_one]

def tfState : State := { baseState with enableMapOdomTf := true }

def mismatchPose : PoseWithCovStamped := ⟨stamp0, "odom", ⟨zeroVec, idQuat⟩⟩

def staleOdomState : State := { baseState with lastOdomReceivedTime := 1 }

def odomMsgHalf : OdomMsg := ⟨⟨0, 500000000⟩, zeroVec, zeroVec⟩

def odomMsgZero : OdomMsg := ⟨stamp0, zeroVec, zeroVec⟩

def replayState : State := { baseState with lastScan := some emptyScan }

def replayArmed : State :=
  { replayState with initialposeRecieved := true, correntPose := basePose }

/-- Concrete instance of the C2 theorem: ready state, empty scan,
non-converging oracle stub. -/
theorem cloudReceived_nonconverged_no_effect_concrete :
    baseState.mapRecieved = true ∧ baseState.initialposeRecieved = true ∧
    processedCloud adjId none baseState emptyScan = some [] ∧
    (alignNoConv [] (initGuess baseState)).hasConverged = false ∧
    cloudReceived alignNoConv adjId none none baseState (some emptyScan) =
      some (baseState, [Pub.warnNotConverged]) :=
  ⟨rfl, rfl, processedCloud_nil adjId none baseState emptyScan rfl rfl rfl, rfl,
    cloudReceived_nonconverged_no_effect alignNoConv adjId none none baseState emptyScan []
      rfl rfl (processedCloud_nil adjId none baseState emptyScan rfl rfl rfl) rfl⟩

/-- Concrete instance of the C3 theorem: decoupling enabled, converged
oracle, failing odom→base lookup. -/
theorem cloudReceived_tf_lookup_failure_pose_only_concrete :
    tfState.enableMapOdomTf = true ∧
    res7.hasConverged = true ∧
    cloudReceived alignConv7 adjId none none tfState (some emptyScan) =
      some ({ tfState with correntPose := cyclePose res7 emptyScan tfState },
        fitnessWarnList tfState res7 ++
          [Pub.pose (cyclePose res7 emptyScan tfState), Pub.warnOdomTfFailed]) :=
  ⟨rfl, rfl,
    cloudReceived_tf_lookup_failure_pose_only alignConv7 adjId none tfState emptyScan [] res7
      rfl rfl (processedCloud_nil adjId none tfState emptyScan rfl rfl rfl) rfl rfl rfl⟩

/-- Concrete instance of the C1 theorem: decoupling enabled, converged
oracle, identity odom→base lookup. -/
theorem cloudReceived_map_odom_chain_concrete :
    quatNormSq idTransformMsg.rotation ≠ 0 ∧
    (cloudReceived alignConv7 adjId none (some idTransformMsg) tfState (some emptyScan) =
      some (acceptState tfState res7 emptyScan,
        fitnessWarnList tfState res7 ++
          [Pub.pose (cyclePose res7 emptyScan tfState),
           Pub.tf tfState.globalFrameId tfState.odomFrameId (mapToOdomTf res7 idTransformMsg),
           Pub.path (tfState.path ++ [pathEntry res7 emptyScan tfState])])
    ∧ (mapToOdomTf res7 idTransformMsg).mul (tf2FromMsg idTransformMsg) = mapToBaseTf res7) :=
  ⟨by norm_num [quatNormSq, idTransformMsg, idQuat],
    cloudReceived_map_odom_chain alignConv7 adjId none idTransformMsg tfState emptyScan [] res7
      rfl rfl (processedCloud_nil adjId none tfState emptyScan rfl rfl rfl) rfl rfl rfl
      (by norm_num [quatNormSq, idTransformMsg, idQuat])⟩

/-- Concrete instance of the C4 theorem: oracle stub converges with
fitness 5 against threshold 2. -/
theorem cloudReceived_fitness_soft_gate_concrete :
    res7HighFit.hasConverged = true ∧
    baseState.scoreThreshold < res7HighFit.fitnessScore ∧
    (cloudReceived alignHighFit adjId none none baseState (some emptyScan) =
      some (acceptState baseState res7HighFit emptyScan,
        Pub.warnFitnessOver ::
          [Pub.pose (cyclePose res7HighFit emptyScan baseState),
           Pub.tf baseState.globalFrameId baseState.baseFrameId (mapToBaseTf res7HighFit),
           Pub.path (baseState.path ++ [pathEntry res7HighFit emptyScan baseState])])
    ∧ cloudReceived (fun c g => { alignHighFit c g with fitnessScore := baseState.scoreThreshold })
        adjId none none baseState (some emptyScan) =
      some (acceptState baseState res7HighFit emptyScan,
        [Pub.pose (cyclePose res7HighFit emptyScan baseState),
         Pub.tf baseState.globalFrameId baseState.baseFrameId (mapToBaseTf res7HighFit),
         Pub.path (baseState.path ++ [pathEntry res7HighFit emptyScan baseState])])) :=
  ⟨rfl, by norm_num [baseState, res7HighFit],
    cloudReceived_fitness_soft_gate alignHighFit adjId none none baseState emptyScan [] res7HighFit
      rfl rfl (processedCloud_nil adjId none baseState emptyScan rfl rfl rfl) rfl rfl rfl
      (by norm_num [baseState, res7HighFit])⟩

/-- Concrete instance of the C6 theorem: initial pose in frame `odom`
against global frame `map`. -/
theorem initialPoseReceived_frame_mismatch_concrete :
    mismatchPose.frame ≠ baseState.globalFrameId ∧
    initialPoseReceived alignConv7 adjId none none baseState mismatchPose =
      some (baseState, [Pub.warnFrameMismatch]) :=
  ⟨by decide,
    initialPoseReceived_frame_mismatch alignConv7 adjId none none baseState mismatchPose
      (by decide)⟩

/-- Concrete instance of the C7 theorem: sample at t = 0.5 s after a
previous sample at t = 1 s, i.e. dt = −0.5 s. -/
theorem odomReceived_dt_guard_concrete :
    odomMsgHalf.stamp.toSec - staleOdomState.lastOdomReceivedTime < 0 ∧
    (odomReceived staleOdomState odomMsgHalf).1.correntPose = staleOdomState.correntPose :=
  ⟨by norm_num [Stamp.toSec, odomMsgHalf, staleOdomState, baseState],
    odomReceived_dt_guard staleOdomState odomMsgHalf
      (Or.inl (by norm_num [Stamp.toSec, odomMsgHalf, staleOdomState, baseState]))⟩

/-- Concrete instance of the amended C8 theorem at dt = 0. -/
theorem odomReceived_accepted_matches_spec_post_concrete :
    baseState.useOdom = true ∧
    0 ≤ odomMsgZero.stamp.toSec - baseState.lastOdomReceivedTime ∧
    odomMsgZero.stamp.toSec - baseState.lastOdomReceivedTime ≤ 1 ∧
    (odomReceived baseState odomMsgZero).1.correntPose.pose =
      specPredictPost baseState.correntPose.pose odomMsgZero
        (odomMsgZero.stamp.toSec - baseState.lastOdomReceivedTime) :=
  ⟨rfl, by norm_num [Stamp.toSec, odomMsgZero, stamp0, baseState],
    by norm_num [Stamp.toSec, odomMsgZero, stamp0, baseState],
    odomReceived_accepted_matches_spec_post baseState odomMsgZero rfl
      (by norm_num [Stamp.toSec, odomMsgZero, stamp0, baseState])
      (by norm_num [Stamp.toSec, odomMsgZero, stamp0, baseState])⟩

/-- Concrete instance of the amended C9 theorem. -/
theorem processedCloud_downsample_before_range_concrete :
    emptyScan.frame = baseState.baseFrameId ∧
    processedCloud adjId none baseState emptyScan =
      some (rangeFilter baseState.scanMinRange baseState.scanMaxRange
        (voxelGridFilter baseState.voxelLeafSize
          (if baseState.useImu = true then adjId emptyScan.points emptyScan.stamp.toSec
           else emptyScan.points))) :=
  ⟨rfl, processedCloud_downsample_before_range adjId none baseState emptyScan rfl⟩

/-- Concrete instance of the C10 theorem: map present, no remembered scan,
matching frame — the replay dereferences the null scan pointer. -/
theorem initialPoseReceived_null_deref_iff_concrete :
    basePose.frame = baseState.globalFrameId ∧
    (initialPoseReceived alignConv7 adjId none none baseState basePose = none ↔
      (baseState.mapRecieved = true ∧ baseState.lastScan = none)) :=
  ⟨rfl,
    initialPoseReceived_null_deref_iff alignConv7 adjId none none baseState basePose rfl⟩

/-- Concrete instance of the amended C5 theorem: a remembered empty scan
is replayed after a matching initial pose and the cycle is accepted. -/
theorem initialPoseReceived_replay_concrete :
    basePose.frame = replayState.globalFrameId ∧
    replayState.mapRecieved = true ∧
    replayState.lastScan = some emptyScan ∧
    res7.hasConverged = true ∧
    initialPoseReceived alignConv7 adjId none none replayState basePose =
      some (acceptState replayArmed res7 emptyScan,
        Pub.pose basePose ::
          (fitnessWarnList replayArmed res7 ++
            [Pub.pose (cyclePose res7 emptyScan replayArmed),
             Pub.tf replayArmed.globalFrameId replayArmed.baseFrameId (mapToBaseTf res7),
             Pub.path (replayArmed.path ++ [pathEntry res7 emptyScan replayArmed])])) :=
  ⟨rfl, rfl, rfl, rfl,
    initialPoseReceived_replay alignConv7 adjId none none replayState replayArmed basePose
      emptyScan [] res7 rfl rfl rfl rfl
      (processedCloud_nil adjId none replayArmed emptyScan rfl rfl rfl) rfl rfl rfl⟩

/-- Counterexample to C5 as stated: a matching initial pose at the origin
is delivered in a tracking state with a remembered scan; the replay cycle
is accepted with translation (7, 0, 0).  The handler's full output is
computed explicitly: the resulting trajectory is the single aligned entry
with position (7, 0, 0) — the supplied pose (position 0) was published and
installed as the estimate base but never appended to the trajectory,
contradicting the claim's "appended to the trajectory". -/
theorem initialPoseReceived_no_append_counterexample :
    initialPoseReceived alignConv7 adjId none none replayState basePose =
      some ({ replayArmed with
                correntPose := ⟨stamp0, "map", ⟨⟨7, 0, 0⟩, idQuat⟩⟩,
                path := [⟨stamp0, "map", ⟨⟨7, 0, 0⟩, idQuat⟩⟩],
                lastScan := some emptyScan },
        [Pub.pose basePose,
         Pub.pose ⟨stamp0, "map", ⟨⟨7, 0, 0⟩, idQuat⟩⟩,
         Pub.tf "map" "base_link" ⟨Mat3.id, ⟨7, 0, 0⟩⟩,
         Pub.path [⟨stamp0, "map", ⟨⟨7, 0, 0⟩, idQuat⟩⟩]])
    ∧ (⟨⟨7, 0, 0⟩, idQuat⟩ : Pose) ≠ basePose.pose := by
  constructor
  · have hcr := cloudReceived_accepted alignConv7 adjId none none replayArmed emptyScan [] res7
      rfl rfl (processedCloud_nil adjId none replayArmed emptyScan rfl rfl rfl) rfl rfl rfl
    have hpose : cyclePose res7 emptyScan replayArmed =
        ⟨stamp0, "map", ⟨⟨7, 0, 0⟩, idQuat⟩⟩ := by
      simp [cyclePose, res7, emptyScan, replayArmed, replayState, baseState, eigenQuatFromMat_id]
    have hmb : mapToBaseTf res7 = ⟨Mat3.id, ⟨7, 0, 0⟩⟩ := by
      simp [mapToBaseTf, res7, eigenQuatFromMat_id, tf2SetRotation_id]
    have hfw : fitnessWarnList replayArmed res7 = [] := by
      simp only [fitnessWarnList, res7]
      rw [if_neg (by norm_num [replayArmed, replayState, baseState])]
    simp only [initialPoseReceived]
    rw [if_pos (show basePose.frame = replayState.globalFrameId from rfl)]
    show (match cloudReceived alignConv7 adjId none none replayArmed replayArmed.lastScan with
      | none => none
      | some (s2, pubs) => some (s2, Pub.pose basePose :: pubs)) = _
    rw [show replayArmed.lastScan = some emptyScan from rfl, hcr]
    simp only [hpose, hmb, hfw, acceptState, pathEntry, List.nil_append]
    rw [show replayArmed.path = [] from rfl]
    simp [replayArmed, replayState, baseState, emptyScan]
  · intro h
    have h7 := congrArg (fun p => p.position.x) h
    simp [basePose, zeroVec] at h7

def voxelState : State := { baseState with voxelLeafSize := 2 }

/-- Two points on the x-axis in one leaf-2 voxel: one inside the range
window `(1, 100)`, one below it. -/
def scanTwoPoints : Scan := ⟨stamp0, "base_link", [⟨1 / 2, 0, 0⟩, ⟨3 / 2, 0, 0⟩]⟩

/-- Counterexample to C9 as stated: with leaf size 2 and range window
`(1, 100)`, the cloud the pipeline hands to the oracle for
`scanTwoPoints` is empty — the code downsamples first (the two points
average to (1, 0, 0)) and range-filters second (range 1 is not strictly
above the minimum), whereas applying the range filter first and
downsampling second (the order the claim asserts) keeps the point
(3/2, 0, 0).  The oracle input differs from the claimed-order result. -/
theorem processedCloud_order_counterexample :
    processedCloud adjId none voxelState scanTwoPoints = some []
    ∧ voxelGridFilter voxelState.voxelLeafSize
        (rangeFilter voxelState.scanMinRange voxelState.scanMaxRange scanTwoPoints.points)
        = [⟨3 / 2, 0, 0⟩]
    ∧ some ([] : List Point) ≠ some [(⟨3 / 2, 0, 0⟩ : Point)] := by
  have hk1 : voxelKey 2 ⟨1 / 2, 0, 0⟩ = ((0 : ℤ), (0 : ℤ), (0 : ℤ)) := by
    simp only [voxelKey]
    norm_num
  have hk2 : voxelKey 2 ⟨3 / 2, 0, 0⟩ = ((0 : ℤ), (0 : ℤ), (0 : ℤ)) := by
    simp only [voxelKey]
    norm_num
  have hsqrt1 : Real.sqrt ((1 : ℝ) ^ 2 + 0 ^ 2) = 1 := by
    rw [show ((1 : ℝ) ^ 2 + 0 ^ 2) = 1 by norm_num, Real.sqrt_one]
  have hsqrtHalf : Real.sqrt ((1 / 2 : ℝ) ^ 2 + 0 ^ 2) = 1 / 2 := by
    rw [show ((1 / 2 : ℝ) ^ 2 + 0 ^ 2) = (1 / 2) ^ 2 by norm_num,
      Real.sqrt_sq (by norm_num)]
  have hsqrt32 : Real.sqrt ((3 / 2 : ℝ) ^ 2 + 0 ^ 2) = 3 / 2 := by
    rw [show ((3 / 2 : ℝ) ^ 2 + 0 ^ 2) = (3 / 2) ^ 2 by norm_num,
      Real.sqrt_sq (by norm_num)]
  have hvoxBoth : voxelGridFilter 2 [(⟨1 / 2, 0, 0⟩ : Point), ⟨3 / 2, 0, 0⟩] = [⟨1, 0, 0⟩] := by
    simp only [voxelGridFilter, List.map_cons, List.map_nil, hk1, hk2]
    have hd : dedupKeys [((0 : ℤ), (0 : ℤ), (0 : ℤ)), (0, 0, 0)] = [(0, 0, 0)] := by
      simp [dedupKeys]
    have hs : sortKeys [((0 : ℤ), (0 : ℤ), (0 : ℤ))] = [(0, 0, 0)] := by
      simp [sortKeys, insertKey]
    rw [hd, hs, List.map_cons, List.map_nil]
    have hb1 : decide (voxelKey 2 (⟨1 / 2, 0, 0⟩ : Point) = ((0 : ℤ), (0 : ℤ), (0 : ℤ)))
        = true := by rw [hk1]; rfl
    have hb2 : decide (voxelKey 2 (⟨3 / 2, 0, 0⟩ : Point) = ((0 : ℤ), (0 : ℤ), (0 : ℤ)))
        = true := by rw [hk2]; rfl
    have hf : List.filter (fun p => decide (voxelKey 2 p = ((0 : ℤ), (0 : ℤ), (0 : ℤ))))
        [(⟨1 / 2, 0, 0⟩ : Point), ⟨3 / 2, 0, 0⟩] = [⟨1 / 2, 0, 0⟩, ⟨3 / 2, 0, 0⟩] := by
      rw [List.filter_cons_of_pos (p := fun p => decide (voxelKey 2 p = ((0 : ℤ), (0 : ℤ), (0 : ℤ)))) hb1,
        List.filter_cons_of_pos (p := fun p => decide (voxelKey 2 p = ((0 : ℤ), (0 : ℤ), (0 : ℤ)))) hb2,
        List.filter_nil]
    rw [hf]
    have hc : centroid [(⟨1 / 2, 0, 0⟩ : Point), ⟨3 / 2, 0, 0⟩] = ⟨1, 0, 0⟩ := by
      simp only [centroid, List.map_cons, List.map_nil, List.sum_cons, List.sum_nil,
        List.length_cons, List.length_nil]
      ext <;> norm_num
    rw [hc]
  have hrangeCentroid : rangeFilter 1 100 [(⟨1, 0, 0⟩ : Point)] = [] := by
    simp only [rangeFilter, hsqrt1]
    rw [if_neg (by norm_num)]
  have hrangeBoth : rangeFilter 1 100 [(⟨1 / 2, 0, 0⟩ : Point), ⟨3 / 2, 0, 0⟩]
      = [⟨3 / 2, 0, 0⟩] := by
    simp only [rangeFilter, hsqrtHalf, hsqrt32]
    rw [if_neg (by norm_num), if_pos (by norm_num)]
  have hvoxOne : voxelGridFilter 2 [(⟨3 / 2, 0, 0⟩ : Point)] = [⟨3 / 2, 0, 0⟩] := by
    simp only [voxelGridFilter, List.map_cons, List.map_nil, hk2]
    have hd : dedupKeys [((0 : ℤ), (0 : ℤ), (0 : ℤ))] = [(0, 0, 0)] := by
      simp [dedupKeys]
    have hs : sortKeys [((0 : ℤ), (0 : ℤ), (0 : ℤ))] = [(0, 0, 0)] := by
      simp [sortKeys, insertKey]
    rw [hd, hs, List.map_cons, List.map_nil]
    have hb2 : decide (voxelKey 2 (⟨3 / 2, 0, 0⟩ : Point) = ((0 : ℤ), (0 : ℤ), (0 : ℤ)))
        = true := by rw [hk2]; rfl
    have hf : List.filter (fun p => decide (voxelKey 2 p = ((0 : ℤ), (0 : ℤ), (0 : ℤ))))
        [(⟨3 / 2, 0, 0⟩ : Point)] = [⟨3 / 2, 0, 0⟩] := by
      rw [List.filter_cons_of_pos (p := fun p => decide (voxelKey 2 p = ((0 : ℤ), (0 : ℤ), (0 : ℤ)))) hb2,
        List.filter_nil]
    rw [hf]
    have hc : centroid [(⟨3 / 2, 0, 0⟩ : Point)] = ⟨3 / 2, 0, 0⟩ := by
      simp only [centroid, List.map_cons, List.map_nil, List.sum_cons, List.sum_nil,
        List.length_cons, List.length_nil]
      ext <;> norm_num
    rw [hc]
  refine ⟨?_, ?_, by simp⟩
  · simp only [processedCloud]
    rw [if_pos (show scanTwoPoints.frame = voxelState.baseFrameId from rfl),
      show voxelState.useImu = false from rfl]
    simp only [Bool.false_eq_true, if_false]
    rw [show voxelState.voxelLeafSize = 2 from rfl,
      show voxelState.scanMinRange = 1 from rfl,
      show voxelState.scanMaxRange = 100 from rfl,
      show scanTwoPoints.points = [(⟨1 / 2, 0, 0⟩ : Point), ⟨3 / 2, 0, 0⟩] from rfl,
      hvoxBoth, hrangeCentroid]
  · rw [show voxelState.voxelLeafSize = 2 from rfl,
      show voxelState.scanMinRange = 1 from rfl,
      show voxelState.scanMaxRange = 100 from rfl,
      show scanTwoPoints.points = [(⟨1 / 2, 0, 0⟩ : Point), ⟨3 / 2, 0, 0⟩] from rfl,
      hrangeBoth, hvoxOne]

/-- Odometry sample 0.5 s after the last one, with body-frame forward
velocity 1 m/s and yaw rate π rad/s (so the integrated yaw is π/2). -/
def odomMsgTurn : OdomMsg := ⟨⟨0, 500000000⟩, ⟨1, 0, 0⟩, ⟨0, 0, Real.pi⟩⟩

/-- Counterexample to C8 as stated: for the accepted sample `odomMsgTurn`
from identity orientation, the code rotates the velocity by the freshly
integrated (post-update) orientation — yaw π/2 sends the forward velocity
to +y, giving position y = 1/2 — whereas the claim's pre-update reading
(`specPredictPre`) rotates by the identity and leaves y = 0.  The two
results differ, so the claim's "current (pre-update) orientation frame" is
wrong about the code. -/
theorem odomReceived_velocity_rotation_counterexample :
    0 ≤ odomMsgTurn.stamp.toSec - baseState.lastOdomReceivedTime
    ∧ odomMsgTurn.stamp.toSec - baseState.lastOdomReceivedTime ≤ 1
    ∧ (odomReceived baseState odomMsgTurn).1.correntPose.pose ≠
        specPredictPre baseState.correntPose.pose odomMsgTurn
          (odomMsgTurn.stamp.toSec - baseState.lastOdomReceivedTime) := by
  have hts : odomMsgTurn.stamp.toSec = 1 / 2 := by
    norm_num [Stamp.toSec, odomMsgTurn]
  have hdt : odomMsgTurn.stamp.toSec - baseState.lastOdomReceivedTime = 1 / 2 := by
    rw [hts, show baseState.lastOdomReceivedTime = (0 : ℝ) from rfl]
    norm_num
  have hq0 : baseState.correntPose.pose.orientation = idQuat := rfl
  have hpos0 : baseState.correntPose.pose.position = zeroVec := rfl
  have hang : odomMsgTurn.angular = ⟨0, 0, Real.pi⟩ := rfl
  have hlin : odomMsgTurn.linear = ⟨1, 0, 0⟩ := rfl
  have hquat : Quat.mul (Quat.mul (axisAngleQuatX (0 + 0 * (1 / 2)))
      (axisAngleQuatY (0 + 0 * (1 / 2)))) (axisAngleQuatZ (0 + Real.pi * (1 / 2)))
      = ⟨0, 0, Real.sin (Real.pi / 4), Real.cos (Real.pi / 4)⟩ := by
    have h0 : (0 : ℝ) + 0 * (1 / 2) = 0 := by norm_num
    have hhalf : ((0 : ℝ) + Real.pi * (1 / 2)) / 2 = Real.pi / 4 := by ring
    have hz : (0 : ℝ) / 2 = 0 := by norm_num
    simp only [h0, axisAngleQuatX, axisAngleQuatY, axisAngleQuatZ, hhalf, hz,
      Real.sin_zero, Real.cos_zero]
    ext <;> simp [Quat.mul]
  have hyx : (eigenQuatToMat ⟨0, 0, Real.sin (Real.pi / 4), Real.cos (Real.pi / 4)⟩).yx
      = 1 := by
    simp only [eigenQuatToMat]
    rw [Real.sin_pi_div_four, Real.cos_pi_div_four]
    have h2 : Real.sqrt 2 * Real.sqrt 2 = 2 := Real.mul_self_sqrt (by norm_num)
    linear_combination h2 / 2
  have hcode : (odomReceived baseState odomMsgTurn).1.correntPose.pose.position.y
      = 1 / 2 := by
    simp only [odomReceived]
    rw [if_pos (show baseState.useOdom = true from rfl), hdt]
    rw [if_neg (show ¬ (1 : ℝ) < 1 / 2 by norm_num),
      if_neg (show ¬ (1 / 2 : ℝ) < 0 by norm_num)]
    rw [hq0, tf2SetRotation_id, tf2GetRPY_id, hang, hlin, hpos0]
    simp only [hquat]
    simp only [Mat3.smul, Mat3.mulVec, Vec3.add, zeroVec]
    rw [hyx]
    norm_num
  have hspec : (specPredictPre baseState.correntPose.pose odomMsgTurn
      (odomMsgTurn.stamp.toSec - baseState.lastOdomReceivedTime)).position.y = 0 := by
    rw [hdt]
    simp only [specPredictPre]
    rw [hq0, eigenQuatToMat_id, hlin, hpos0]
    simp [Vec3.add, Vec3.smul, Mat3.mulVec, Mat3.id, zeroVec]
  refine ⟨by rw [hdt]; norm_num, by rw [hdt]; norm_num, ?_⟩
  intro heq
  have hy := congrArg (fun p : Pose => p.position.y) heq
  simp only [] at hy
  rw [hcode, hspec] at hy
  norm_num at hy

end LidarLoc
